import Mathlib

/-!
# Verification of the MJ_Responder email ingestion and reply pipeline

A shallow embedding, in Lean 4, of the core of the MJ_Responder backend
(`backend/server.py` and `backend/email_services.py`): the IMAP connection
manager (`EmailConnection.fetch_new_emails` and friends), the message
normalizer (thread-id derivation), the reply-pipeline state machine
(`process_email_async`, `redraft_email`, `send_email_reply`,
`EmailPollingService._auto_send_email`, `_process_new_email`) and the outbound
composer (`EmailConnection.send_email`).

External I/O (the IMAP/SMTP servers, the MongoDB store, the LLM collaborators)
is modelled by explicit oracle parameters; every Python `try`/`except` becomes
an explicit branch of the embedded function, so the embeddings are total
computable functions and each claim is settled by theorems about them.
-/

namespace MJResponder

/-! ## Python string primitives used by the source -/

/-- Python truthiness of an optional string (`if s:`): `None` and `""` are
falsy, every other string is truthy. -/
def pyTruthy : Option String → Bool
  | none => false
  | some s => s ≠ ""

/-- The value of an optional string, `""` for `None` (used where the source
has already checked truthiness). -/
def getS : Option String → String
  | none => ""
  | some s => s

/-- Does `pat` occur as a contiguous run inside `l`? -/
def listContains (pat : List Char) : List Char → Bool
  | [] => pat.isEmpty
  | c :: rest => pat.isPrefixOf (c :: rest) || listContains pat rest

/-- Python `needle in haystack` for strings: substring containment. -/
def strContains (haystack needle : String) : Bool :=
  listContains needle.data haystack.data

/-- Python `s.strip()` with no arguments: drop leading and trailing
whitespace.  (Defined over the character list so that concrete instances
reduce inside the kernel.) -/
def pyStrip (s : String) : String :=
  ⟨((s.data.dropWhile Char.isWhitespace).reverse.dropWhile
      Char.isWhitespace).reverse⟩

/-- Python `s.upper()` (the source only compares ASCII verdict tokens). -/
def pyUpper (s : String) : String := ⟨s.data.map Char.toUpper⟩

/-- Python `s.lower()`. -/
def pyLower (s : String) : String := ⟨s.data.map Char.toLower⟩

/-- Python `s.startswith(pre)`. -/
def pyStartswith (s pre : String) : Bool := pre.data.isPrefixOf s.data

/-- Python `s[n:]` (drop the first `n` code points). -/
def pyDrop (s : String) (n : Nat) : String := ⟨s.data.drop n⟩

/-- Worker for Python `s.replace(pat, rep)`: replace non-overlapping
occurrences left to right.  `fuel` bounds the recursion (`l.length` is
enough since every step consumes at least one character of a non-empty
pattern). -/
def pyReplaceAux (pat rep : List Char) : Nat → List Char → List Char
  | 0, l => l
  | _ + 1, [] => []
  | fuel + 1, c :: rest =>
    if pat ≠ [] ∧ pat.isPrefixOf (c :: rest) then
      rep ++ pyReplaceAux pat rep fuel ((c :: rest).drop pat.length)
    else c :: pyReplaceAux pat rep fuel rest

/-- Python `s.replace(pat, rep)`. -/
def pyReplace (s pat rep : String) : String :=
  ⟨pyReplaceAux pat.data rep.data s.data.length s.data⟩

/-- The characters stripped by Python `strip('<>')`. -/
def isAngle (c : Char) : Bool := c == '<' || c == '>'

/-- Python `s.strip('<>')`: remove leading and trailing `<` / `>` characters. -/
def stripAngles (s : String) : String :=
  ⟨((s.data.dropWhile isAngle).reverse.dropWhile isAngle).reverse⟩

/-- Worker for Python `s.split()` (split on whitespace runs, no empty
tokens); `acc` holds the characters of the token in progress, reversed. -/
def wsTokensAux : List Char → List Char → List (List Char)
  | [], acc => if acc = [] then [] else [acc.reverse]
  | c :: rest, acc =>
    if c.isWhitespace then
      if acc = [] then wsTokensAux rest []
      else acc.reverse :: wsTokensAux rest []
    else wsTokensAux rest (c :: acc)

/-- Python `s.split()` with no arguments: whitespace-separated tokens. -/
def pySplitWs (s : String) : List String :=
  (wsTokensAux s.data []).map fun l => ⟨l⟩

/-- Python `re.sub(r'^(re:|fwd?:)\s*', '', s)`: remove one leading
`re:` / `fw:` / `fwd:` marker together with the whitespace following it
(the `^` anchor only matches at the start of the string, so at most one
substitution happens). -/
def stripReFwd (s : String) : String :=
  if pyStartswith s "re:" then ⟨((pyDrop s 3).data.dropWhile Char.isWhitespace)⟩
  else if pyStartswith s "fwd:" then ⟨((pyDrop s 4).data.dropWhile Char.isWhitespace)⟩
  else if pyStartswith s "fw:" then ⟨((pyDrop s 3).data.dropWhile Char.isWhitespace)⟩
  else s

/-- Suffix of `l` that follows the first occurrence of `pat`, if any
(the scanning part of one non-greedy regex match). -/
def dropThroughPat (pat : List Char) : List Char → Option (List Char)
  | [] => none
  | c :: rest =>
    if pat.isPrefixOf (c :: rest) then some ((c :: rest).drop pat.length)
    else dropThroughPat pat rest

/-- Worker for Python `re.sub(r'<think>.*?</think>', '', s, flags=re.DOTALL)`:
scan left to right; at each position where `<think>` starts and a later
`</think>` exists, delete through the first `</think>` and continue after it;
otherwise keep the character.  `fuel` bounds the recursion (each step strictly
shrinks the input, so `l.length` is enough fuel). -/
def removeThinkAux : Nat → List Char → List Char
  | 0, l => l
  | _ + 1, [] => []
  | fuel + 1, c :: rest =>
    if "<think>".data.isPrefixOf (c :: rest) then
      match dropThroughPat "</think>".data ((c :: rest).drop 7) with
      | some suffix => removeThinkAux fuel suffix
      | none => c :: removeThinkAux fuel rest
    else c :: removeThinkAux fuel rest

/-- Python `re.sub(r'<think>.*?</think>', '', s, flags=re.DOTALL)`. -/
def removeThinkTags (s : String) : String :=
  ⟨removeThinkAux s.data.length s.data⟩

/-! ## Data model -/

/-- One classification result stored in a message's `intents` list.  The
classifier (`classify_email_intents`, embeddings plus cosine similarity)
is an external collaborator in the sense of spec §6; the pipeline never
inspects the entries, so only the name is carried. -/
structure IntentResult where
  name : String
  deriving Repr, DecidableEq

/-- The dict returned by `generate_draft` (the `reasoning` entry is never
read downstream and is omitted). -/
structure DraftResult where
  plain_text : String
  html : String
  deriving Repr, DecidableEq

/-- The dict returned by `validate_draft`. -/
structure ValidationResult where
  status : String
  feedback : String
  coverage_report : String
  deriving Repr, DecidableEq

/-- Modelled from the spec: the `EmailMessage` pydantic model.  Both
`server.py` and `email_services.py` import it from each other and neither
module in `src/` defines it, so its fields follow spec §3 (immutable
identity fields plus the mutable processing envelope); timestamps are
abstract `Nat` instants. -/
structure EmailMessage where
  id : String
  account_id : String
  message_id : String
  thread_id : String
  subject : String
  sender : String
  recipient : String
  body : String
  body_html : String
  received_at : Nat
  status : String
  intents : List IntentResult := []
  draft : Option String := none
  draft_html : Option String := none
  validation_result : Option ValidationResult := none
  processed_at : Option Nat := none
  sent_at : Option Nat := none
  error : Option String := none
  deriving Repr, DecidableEq

/-- The account fields the embedded operations read (`EmailAccount` /
`account_config` dict). -/
structure AccountConfig where
  id : String
  email : String
  name : String
  signature : String
  is_active : Bool
  auto_send : Bool
  deriving Repr, DecidableEq

/-- The dict built by `EmailConnection._fetch_email_by_uid` for one fetched
message. -/
structure RawEmail where
  uid : Nat
  message_id : String
  thread_id : String
  subject : String
  sender : String
  recipient : String
  body : String
  body_html : String
  received_at : Nat
  in_reply_to : String
  references : String
  account_id : String
  deriving Repr, DecidableEq

/-! ## Validation-response parsing (`server.validate_draft`, lines 599–622)

`validate_draft` builds a prompt, calls the LLM, and then parses the raw
response text; only the parse is embedded (the LLM is an oracle supplying
the raw response). -/

/-- The cleaning applied to the raw validator response:
`validation_response.strip()`, then think-tag removal, then `.strip()`. -/
def cleanValidationResponse (raw : String) : String :=
  pyStrip (removeThinkTags (pyStrip raw))

/-- `is_pass` from `validate_draft`:
`"PASS:" in validation_response.upper() or
 validation_response.upper().startswith("PASS")`. -/
def isPassResponse (r : String) : Bool :=
  strContains (pyUpper r) "PASS:" || pyStartswith (pyUpper r) "PASS"

/-- The dict returned by `validate_draft` as a function of the raw LLM
response text. -/
def parseValidation (raw : String) : ValidationResult :=
  let r := cleanValidationResponse raw
  { status := if isPassResponse r then "PASS" else "FAIL"
    feedback :=
      if pyStartswith r "PASS:" then pyStrip (pyDrop r 5)
      else if pyStartswith r "FAIL:" then pyStrip (pyDrop r 5)
      else r
    coverage_report := r }

/-! ## The reply pipeline (`server.process_email_async`, lines 655–706)

The three collaborator calls are oracles for their outcomes: `.error e`
models the call raising an exception with text `e` (caught by the
function's `except`, which stamps status `error`), `.ok v` a normal
return.  The validator oracle yields the raw LLM response text, which the
embedded parse of `validate_draft` then interprets. -/

/-- `process_email_async(email_id)`: the accumulated effect of its
successive `update_one` calls on the message document.  An exception at a
stage leaves the earlier stages' updates in place and overwrites `status`
and `error`. -/
def processEmailAsync (m : EmailMessage)
    (classifyR : Except String (List IntentResult))
    (draftR : Except String DraftResult)
    (valR : Except String String) (now : Nat) : EmailMessage :=
  match classifyR with
  | .error e => { m with status := "error", error := some e }
  | .ok intents =>
    let m1 := { m with intents := intents, status := "classifying" }
    match draftR with
    | .error e => { m1 with status := "error", error := some e }
    | .ok d =>
      let m2 := { m1 with draft := some d.plain_text,
                          draft_html := some d.html, status := "drafting" }
      match valR with
      | .error e => { m2 with status := "error", error := some e }
      | .ok raw =>
        let validation := parseValidation raw
        let final_status :=
          if validation.status = "PASS" then "ready_to_send" else "needs_redraft"
        { m2 with validation_result := some validation,
                  status := final_status, processed_at := some now }

/-! ## Manual send (`server.send_email_reply`, lines 362–416) -/

/-- `send_email_reply(email_id, request)`: effect on the message document.
`accountFound` models the account lookup, `smtpOk` the boolean returned by
`EmailConnection.send_email` (which catches its own exceptions).  The
HTTP-400 rejection (`status not in ['ready_to_send','needs_redraft']` and
no override) and the HTTP-404 paths leave the document untouched. -/
def sendEmailReply (m : EmailMessage) (manual_override : Bool)
    (accountFound : Bool) (smtpOk : Bool) (now : Nat) : EmailMessage :=
  if !(m.status == "ready_to_send" || m.status == "needs_redraft")
      && !manual_override then m
  else if !accountFound then m
  else if smtpOk then { m with status := "sent", sent_at := some now }
  else { m with status := "send_failed" }

/-! ## Auto send (`email_services.EmailPollingService._auto_send_email`,
lines 551–609) -/

/-- `_auto_send_email(email_id)`: effect on the message document.  Note the
source checks `status == 'ready_to_send'` and `account.get('is_active')`
but never the account's `auto_send` flag. -/
def autoSendEmail (m : EmailMessage) (accountActive : Bool) (smtpOk : Bool)
    (now : Nat) : EmailMessage :=
  if !(m.status == "ready_to_send") then m
  else if !accountActive then m
  else if smtpOk then { m with status := "sent", sent_at := some now }
  else { m with status := "send_failed" }

/-! ## Redraft (`server.redraft_email`, lines 708–746) -/

/-- The inputs `generate_draft` actually reads from the message (subject,
sender, body via the prompt, plus the account and knowledge-base context,
both oracle-side): the `validation_result` field is not among them. -/
structure DraftInputs where
  subject : String
  sender : String
  body : String
  intents : List IntentResult
  deriving Repr, DecidableEq

/-- The inputs `validate_draft` actually reads from the message and draft
when building its prompt. -/
structure ValidateInputs where
  subject : String
  sender : String
  body : String
  draft_plain : String
  intents : List IntentResult
  deriving Repr, DecidableEq

def draftInputsOf (m : EmailMessage) (intents : List IntentResult) : DraftInputs :=
  { subject := m.subject, sender := m.sender, body := m.body, intents := intents }

def validateInputsOf (m : EmailMessage) (d : DraftResult)
    (intents : List IntentResult) : ValidateInputs :=
  { subject := m.subject, sender := m.sender, body := m.body,
    draft_plain := d.plain_text, intents := intents }

/-- `redraft_email(email_id)`: the route reads the stored
`validation_result` feedback into `previous_feedback`, then calls
`generate_draft(email_message, intents)` — the feedback is not an argument;
the `improvement_prompt` string built afterwards is never used.  The
drafter and validator oracles are functions of exactly the data the source
passes to the collaborators.  The route has no `try`/`except`, so a
collaborator exception aborts the request before any `update_one` (the
document is left unchanged). -/
def redraftEmail (drafter : DraftInputs → Except String DraftResult)
    (validator : ValidateInputs → Except String String)
    (m : EmailMessage) (now : Nat) : EmailMessage :=
  let intents := m.intents
  match drafter (draftInputsOf m intents) with
  | .error _ => m
  | .ok d =>
    match validator (validateInputsOf m d intents) with
    | .error _ => m
    | .ok raw =>
      let validation := parseValidation raw
      let final_status :=
        if validation.status = "PASS" then "ready_to_send" else "escalate"
      { m with draft := some d.plain_text, draft_html := some d.html,
               validation_result := some validation, status := final_status,
               processed_at := some now }

/-! ## The message-level operation alphabet

Every operation the backend performs on one stored message, with its
collaborator / transport outcomes embedded as data, so that arbitrary
interleavings are plain lists of operations. -/

inductive Op where
  | pipeline (classifyR : Except String (List IntentResult))
      (draftR : Except String DraftResult) (valR : Except String String)
  | redraftOp (drafter : DraftInputs → Except String DraftResult)
      (validator : ValidateInputs → Except String String)
  | manualSend (manual_override : Bool) (accountFound : Bool) (smtpOk : Bool)
  | autoSend (accountActive : Bool) (smtpOk : Bool)

/-- Apply one backend operation to a message document. -/
def applyOp (now : Nat) : Op → EmailMessage → EmailMessage
  | .pipeline c d v, m => processEmailAsync m c d v now
  | .redraftOp d v, m => redraftEmail d v m now
  | .manualSend o af s, m => sendEmailReply m o af s now
  | .autoSend a s, m => autoSendEmail m a s now

/-! ## Thread-id derivation
(`email_services.EmailConnection._generate_thread_id`, lines 289–305)

`hash()` on a Python string is kept abstract as a parameter `pyHash`
(CPython seeds it per process); none of the angle-bracket branches consult
it. -/

def subjectHashThread (pyHash : String → Int) (selfEmail subject : String) :
    String :=
  let clean_subject := stripReFwd (pyStrip (pyLower subject))
  "thread-" ++ toString (pyHash (clean_subject ++ "_" ++ selfEmail))

/-- `_generate_thread_id(message_id, in_reply_to, references, subject)`.
`selfEmail` is `self.email`; note the `message_id` argument is never read
by the source body. -/
def generateThreadId (pyHash : String → Int) (selfEmail : String)
    (_message_id in_reply_to references subject : String) : String :=
  if in_reply_to ≠ "" then stripAngles in_reply_to
  else if references ≠ "" then
    match pySplitWs references with
    | t :: _ => stripAngles t
    | [] => subjectHashThread pyHash selfEmail subject
  else subjectHashThread pyHash selfEmail subject

/-! ## Outbound composer (`email_services.EmailConnection.send_email`,
lines 323–377) -/

/-- One MIME part attached to the outgoing multipart message. -/
structure MimePart where
  mime : String
  content : String
  deriving Repr, DecidableEq

/-- The outgoing MIME message as `send_email` constructs it. -/
structure MimeMessage where
  to_addr : String
  subject : String
  in_reply_to : Option String
  references : Option String
  message_id : String
  parts : List MimePart
  deriving Repr, DecidableEq

/-- The message `send_email` hands to `smtplib` (`freshId` stands for the
generated `uuid4` Message-ID value).  The source attaches the body parts
first (lines 348–355) and only then appends the account signature — to the
local variables `body` / `body_html`, after they have already been copied
into the attached `MIMEText` parts (lines 357–363); the embedded
`_bodyWithSig` / `_htmlWithSig` reproduce that dead computation. -/
def sendEmailBuild (cfg : AccountConfig) (to_email subject : String)
    (body body_html : Option String)
    (in_reply_to references message_id_to_reply : Option String)
    (freshId : String) : MimeMessage :=
  let inReplyTo :=
    if pyTruthy in_reply_to then in_reply_to
    else if pyTruthy message_id_to_reply then message_id_to_reply
    else none
  let refs :=
    if pyTruthy references then references
    else if pyTruthy message_id_to_reply then message_id_to_reply
    else none
  let parts :=
    (if pyTruthy body then [MimePart.mk "text/plain" (getS body)] else []) ++
    (if pyTruthy body_html then [MimePart.mk "text/html" (getS body_html)] else [])
  let signature := cfg.signature
  let _bodyWithSig :=
    if signature ≠ "" ∧ pyTruthy body then getS body ++ "\n\n" ++ signature
    else getS body
  let _htmlWithSig :=
    if signature ≠ "" ∧ pyTruthy body_html then
      getS body_html ++ "<br><br>" ++ pyReplace signature "\n" "<br>"
    else getS body_html
  { to_addr := to_email, subject := subject, in_reply_to := inReplyTo,
    references := refs, message_id := freshId, parts := parts }

/-! ## Message store
(`email_services.EmailPollingService._process_new_email`, lines 484–514) -/

/-- Does a stored record match the `(message_id, account_id)` duplicate
query of `_process_new_email`? -/
def sameTransportMsg (d : RawEmail) (m : EmailMessage) : Bool :=
  m.message_id == d.message_id && m.account_id == d.account_id

/-- The `EmailMessage` record `_process_new_email` builds from a fetched
dict (`freshId` stands for the generated record id). -/
def mkStoredEmail (d : RawEmail) (freshId : String) : EmailMessage :=
  { id := freshId, account_id := d.account_id, message_id := d.message_id,
    thread_id := d.thread_id, subject := d.subject, sender := d.sender,
    recipient := d.recipient, body := d.body, body_html := d.body_html,
    received_at := d.received_at, status := "new" }

/-- `_process_new_email(email_data)`: effect on the `emails` collection
(modelled as the list of stored records): skip if a record with the same
`(message_id, account_id)` exists, else insert one new record. -/
def processNewEmail (store : List EmailMessage) (d : RawEmail)
    (freshId : String) : List EmailMessage :=
  if store.any (sameTransportMsg d) then store
  else store ++ [mkStoredEmail d freshId]

/-! ## Connection manager
(`email_services.EmailConnection`, lines 44–170)

The mailbox session is reduced to the connection-manager state the source
mutates (`imap_connection`, `last_uid`, `uidvalidity`); every IMAP call is
an oracle outcome in `ImapWorld`.  SEARCH responses are lists of tokens,
`none` standing for a token whose `int(...)` / `.decode()` raises (skipped
by the source's per-token handlers). -/

/-- The fields of `EmailConnection` that `fetch_new_emails` reads and
writes (`connected` is `imap_connection is not None`). -/
structure ConnState where
  connected : Bool
  last_uid : Nat
  uidvalidity : Option String
  deriving Repr, DecidableEq

/-- Outcomes of the IMAP calls one `fetch_new_emails` invocation makes. -/
structure ImapWorld where
  /-- the `noop()` probe in `_is_connection_healthy` succeeds -/
  healthNoopOk : Bool
  /-- `connect_imap()` after a failed health check succeeds -/
  connectOk : Bool
  /-- the keep-alive `noop()` inside the `try` succeeds -/
  noop2Ok : Bool
  /-- `connect_imap()` after a failed keep-alive succeeds -/
  reconnectOk : Bool
  /-- decoded `UIDVALIDITY` value; `none` models a failed or empty
  `response('UIDVALIDITY')` (the source then continues without checking) -/
  uidvResp : Option String
  /-- the `uid('search', ...)` call raises, reaching the outer `except` -/
  searchRaises : Bool
  /-- `typ == 'OK'` for the first-run `SEARCH ALL` -/
  searchAllOk : Bool
  /-- tokens of the `SEARCH ALL` response -/
  mailboxTokens : List (Option Nat)
  /-- `typ == 'OK'` for the incremental `UID n:*` search -/
  searchHiOk : Bool
  /-- tokens of the `UID n:*` response -/
  searchHiTokens : List (Option Nat)
  /-- `_fetch_email_by_uid(uid)`: `none` models both a non-OK fetch and a
  parse failure (that helper catches its own exceptions) -/
  fetchData : Nat → Option RawEmail

/-- The UIDVALIDITY check (lines 110–122): when a truthy token was stored
and the readable current token differs, reset `last_uid` to 0; always
adopt the current token when readable. -/
def applyUidvalidity (uidvResp : Option String) (s : ConnState) : ConnState :=
  match uidvResp with
  | none => s
  | some cur =>
    let s1 :=
      if pyTruthy s.uidvalidity ∧ getS s.uidvalidity ≠ cur then
        { s with last_uid := 0 }
      else s
    { s1 with uidvalidity := some cur }

/-- The per-UID fetch loop (lines 150–162): skip malformed tokens and UIDs
at or below the cursor; on a successful fetch append the record and raise
the cursor to `max cursor uid` (the comparison uses the cursor as already
advanced by earlier iterations, as in the source). -/
def fetchLoop (fetchData : Nat → Option RawEmail) :
    List (Option Nat) → Nat → List RawEmail × Nat
  | [], last => ([], last)
  | none :: ts, last => fetchLoop fetchData ts last
  | some u :: ts, last =>
    if u ≤ last then fetchLoop fetchData ts last
    else
      match fetchData u with
      | some d =>
        let (es, l') := fetchLoop fetchData ts (max last u)
        (d :: es, l')
      | none => fetchLoop fetchData ts last

/-- `fetch_new_emails()` (lines 90–170): returns the fetched records and
the mutated connection state.  Every `except` branch of the source is an
explicit branch here, so the embedding is total — no failure of the
session propagates to the caller. -/
def fetchNewEmails (w : ImapWorld) (s : ConnState) : List RawEmail × ConnState :=
  let healthy := s.connected && w.healthNoopOk
  if ¬healthy ∧ ¬w.connectOk then ([], { s with connected := false })
  else
    let s0 := { s with connected := true }
    if ¬w.noop2Ok ∧ ¬w.reconnectOk then ([], { s0 with connected := false })
    else
      let s1 := applyUidvalidity w.uidvResp s0
      if w.searchRaises then ([], { s1 with connected := false })
      else if s1.last_uid > 0 then
        if ¬w.searchHiOk ∨ w.searchHiTokens = [] then ([], s1)
        else
          let r := fetchLoop w.fetchData w.searchHiTokens s1.last_uid
          (r.1, { s1 with last_uid := r.2 })
      else
        if w.searchAllOk ∧ w.mailboxTokens ≠ [] then
          match w.mailboxTokens.getLast? with
          | some (some n) => ([], { s1 with last_uid := n })
          | some none => ([], { s1 with last_uid := 0 })
          | none => ([], s1)
        else ([], s1)

/-! ## Spec-side definitions and concrete fixtures for the claims -/

/-- The verdict parse in the words of the spec (§4.3: "a `PASS` verdict
(case-insensitive, prefix-based parse of the verdict token)"), applied to
the cleaned validator response; to be compared with the source's
`isPassResponse`. -/
def specVerdictIsPass (raw : String) : Bool :=
  pyStartswith (pyUpper (cleanValidationResponse raw)) "PASS"

/-- Does the operation carry the manual-override flag? -/
def opOverride : Op → Bool
  | .manualSend o _ _ => o
  | _ => false

/-- Is the operation one of the two send operations? -/
def opIsSend : Op → Bool
  | .manualSend _ _ _ => true
  | .autoSend _ _ => true
  | _ => false

/-- The spec's end-to-end example message (§8): subject `Pricing?`, body
`What does it cost?`, sender `a@b.com`, freshly stored. -/
def pricingEmail : EmailMessage :=
  { id := "em-1", account_id := "acct-1", message_id := "<orig-1@b.com>",
    thread_id := "t-1", subject := "Pricing?", sender := "a@b.com",
    recipient := "assistant@co.example", body := "What does it cost?",
    body_html := "", received_at := 0, status := "new" }

/-- An account with a non-empty configured signature. -/
def sigAccount : AccountConfig :=
  { id := "acct-1", email := "assistant@co.example",
    name := "AI Email Assistant",
    signature := "Best regards,\nAI Email Assistant",
    is_active := true, auto_send := true }

/-- A concrete fetched transport message (for the store theorems). -/
def rawEx : RawEmail :=
  { uid := 7, message_id := "<orig-1@b.com>", thread_id := "t-1",
    subject := "Pricing?", sender := "a@b.com",
    recipient := "assistant@co.example", body := "What does it cost?",
    body_html := "", received_at := 0, in_reply_to := "",
    references := "", account_id := "acct-1" }

/-- A healthy IMAP world: every probe succeeds, `UIDVALIDITY` reads
`"uv-2"`, the mailbox holds UIDs 3, 5, 9, and every per-UID fetch parses. -/
def worldEx : ImapWorld :=
  { healthNoopOk := true, connectOk := true, noop2Ok := true,
    reconnectOk := true, uidvResp := some "uv-2", searchRaises := false,
    searchAllOk := true, mailboxTokens := [some 3, some 5, some 9],
    searchHiOk := true, searchHiTokens := [some 3, some 5, some 9],
    fetchData := fun u => some { rawEx with uid := u } }

/-- A world whose search call raises. -/
def worldRaisesEx : ImapWorld :=
  { worldEx with searchRaises := true }

/-- A first-run connection state (cursor zero). -/
def connStateEx : ConnState :=
  { connected := true, last_uid := 0, uidvalidity := some "uv-1" }

/-- A connection state with an advanced cursor and a stored validity
token. -/
def connStateEx2 : ConnState :=
  { connected := true, last_uid := 4, uidvalidity := some "uv-1" }

/-! ## Claim C1 -/

/-- C1: the claim expects that on the spec's end-to-end example
(`auto_send=true` account, passing validator) the pipeline immediately
auto-sends after `ready_to_send`, ending with status `sent` and a non-null
`sent_at`.  Evaluating the embedded `process_email_async` at that input:
intents, draft and a PASS validation are stored, but the run ends at
`ready_to_send` with `sent_at = none` — the pipeline contains no send step
(`_auto_send_email` has no caller anywhere in the backend), so the claimed
final state is never reached. -/
theorem c1_pipeline_stops_at_ready_to_send :
    processEmailAsync pricingEmail (.ok [⟨"Sales Inquiry"⟩])
        (.ok ⟨"Thanks for asking about our pricing plans.",
              "<p>Thanks for asking about our pricing plans.</p>"⟩)
        (.ok "PASS: addresses the pricing question") 5 =
      { pricingEmail with
          intents := [⟨"Sales Inquiry"⟩],
          draft := some "Thanks for asking about our pricing plans.",
          draft_html := some "<p>Thanks for asking about our pricing plans.</p>",
          validation_result := some ⟨"PASS", "addresses the pricing question",
            "PASS: addresses the pricing question"⟩,
          status := "ready_to_send",
          processed_at := some 5 } := by
  decide

/-! ## Claim C2 -/

/-- C2 counterexample: a message that was never in `ready_to_send` becomes
`sent`.  The pipeline runs with a failing validator, leaving the message
in `needs_redraft` (the trace states are `new`, `needs_redraft` — never
`ready_to_send`); a manual send request without override is then accepted
(`send_email_reply` admits `needs_redraft`) and a successful transmission
sets status `sent`. -/
theorem c2_sent_without_ready_to_send :
    pricingEmail.status = "new" ∧
    (applyOp 1 (.pipeline (.ok [⟨"Sales Inquiry"⟩])
        (.ok ⟨"We will get back to you.", "<p>We will get back to you.</p>"⟩)
        (.ok "FAIL: does not answer the pricing question")) pricingEmail).status
      = "needs_redraft" ∧
    (applyOp 2 (.manualSend false true true)
      (applyOp 1 (.pipeline (.ok [⟨"Sales Inquiry"⟩])
        (.ok ⟨"We will get back to you.", "<p>We will get back to you.</p>"⟩)
        (.ok "FAIL: does not answer the pricing question")) pricingEmail)).status
      = "sent" := by
  decide

/-- C2 amended: under any single backend operation, a message only
transitions into `sent` through a send operation whose observed status was
`ready_to_send` or `needs_redraft` or whose request carried
`manual_override`; and a message only transitions into `ready_to_send`
with a stored validation result whose parsed verdict is `PASS`. -/
theorem c2_amended_state_machine_safety (now : Nat) (op : Op)
    (m : EmailMessage) :
    ((applyOp now op m).status = "sent" →
      m.status = "sent" ∨
        (opIsSend op = true ∧
          (m.status = "ready_to_send" ∨ m.status = "needs_redraft" ∨
            opOverride op = true))) ∧
    ((applyOp now op m).status = "ready_to_send" →
      m.status = "ready_to_send" ∨
        (applyOp now op m).validation_result.map ValidationResult.status
          = some "PASS") := by
  cases op with
  | pipeline c d v =>
    rcases c with e | intents
    · constructor <;> intro h <;> simp [applyOp, processEmailAsync] at h
    · rcases d with e | dr
      · constructor <;> intro h <;> simp [applyOp, processEmailAsync] at h
      · rcases v with e | raw
        · constructor <;> intro h <;> simp [applyOp, processEmailAsync] at h
        · constructor <;> intro h
          · exfalso
            simp only [applyOp, processEmailAsync] at h
            split at h <;> simp_all
          · right
            simp only [applyOp, processEmailAsync] at h ⊢
            split at h <;> simp_all
  | redraftOp dr vl =>
    rcases hdr : dr (draftInputsOf m m.intents) with e | dres
    · constructor <;> intro h <;>
        simp_all [applyOp, redraftEmail, hdr]
    · rcases hvl : vl (validateInputsOf m dres m.intents) with e | raw
      · constructor <;> intro h <;>
          simp_all [applyOp, redraftEmail, hdr, hvl]
      · constructor <;> intro h
        · exfalso
          simp only [applyOp, redraftEmail, hdr, hvl] at h
          split at h <;> simp_all
        · right
          simp only [applyOp, redraftEmail, hdr, hvl] at h ⊢
          split at h <;> simp_all
  | manualSend ov af ok =>
    cases hs : (m.status == "ready_to_send" || m.status == "needs_redraft") <;>
      cases ov <;> cases af <;> cases ok <;>
      refine ⟨fun h => ?_, fun h => ?_⟩ <;>
      simp only [applyOp, sendEmailReply, hs, Bool.not_true, Bool.not_false,
        Bool.and_true, Bool.and_false, if_true, if_false, ite_true,
        ite_false, Bool.false_eq_true, Bool.true_eq_false] at h <;>
      simp_all [opIsSend, opOverride]
  | autoSend aa ok =>
    cases hs : (m.status == "ready_to_send") <;>
      cases aa <;> cases ok <;>
      refine ⟨fun h => ?_, fun h => ?_⟩ <;>
      simp only [applyOp, autoSendEmail, hs, Bool.not_true, Bool.not_false,
        if_true, if_false, ite_true, ite_false] at h <;>
      simp_all [opIsSend, opOverride]

/-- C2 amended, witness: the amended safety conclusion at a concrete send
on a `ready_to_send` message. -/
theorem c2_amended_state_machine_safety_witness :
    ({ pricingEmail with status := "ready_to_send" } : EmailMessage).status
        = "sent" ∨
      (opIsSend (.manualSend false true true) = true ∧
        (({ pricingEmail with status := "ready_to_send" } :
            EmailMessage).status = "ready_to_send" ∨
          ({ pricingEmail with status := "ready_to_send" } :
            EmailMessage).status = "needs_redraft" ∨
          opOverride (.manualSend false true true) = true)) := by
  exact (c2_amended_state_machine_safety 3 (.manualSend false true true)
    { pricingEmail with status := "ready_to_send" }).1 (by decide)

/-! ## Claim C3 -/

/-- C3 counterexample: the claim says `ready_to_send` is set exactly when a
case-insensitive, prefix-based parse of the verdict token yields `PASS`.
For the validator response `"FAIL: you shall not PASS: here"` the prefix
parse yields `FAIL`, yet the pipeline sets `ready_to_send`, because
`is_pass` also accepts `"PASS:"` occurring anywhere in the uppercased
response. -/
theorem c3_containment_overrides_prefix_parse :
    (processEmailAsync pricingEmail (.ok [⟨"Sales Inquiry"⟩])
        (.ok ⟨"Draft.", "<p>Draft.</p>"⟩)
        (.ok "FAIL: you shall not PASS: here") 4).status = "ready_to_send" ∧
    specVerdictIsPass "FAIL: you shall not PASS: here" = false := by
  decide

/-- C3 amended: the validation stage sets `ready_to_send` exactly when the
cleaned response (stripped, think-tags removed, stripped), uppercased,
either contains `"PASS:"` anywhere or starts with `"PASS"`; every other
response sets `needs_redraft`. -/
theorem c3_amended_validation_parse (m : EmailMessage)
    (intents : List IntentResult) (d : DraftResult) (raw : String)
    (now : Nat) :
    ((processEmailAsync m (.ok intents) (.ok d) (.ok raw) now).status
        = "ready_to_send" ↔
      (strContains (pyUpper (cleanValidationResponse raw)) "PASS:"
        || pyStartswith (pyUpper (cleanValidationResponse raw)) "PASS")
        = true) ∧
    ((processEmailAsync m (.ok intents) (.ok d) (.ok raw) now).status
        = "needs_redraft" ↔
      (strContains (pyUpper (cleanValidationResponse raw)) "PASS:"
        || pyStartswith (pyUpper (cleanValidationResponse raw)) "PASS")
        = false) := by
  by_cases hp : isPassResponse (cleanValidationResponse raw) = true <;>
    simp_all [processEmailAsync, parseValidation, isPassResponse]
  intro hc
  rcases hp with hp | hp
  · simp_all
  · exact hp

/-- C3 amended, witness: the amended parse applied to a plain `PASS:`
response yields `ready_to_send`. -/
theorem c3_amended_validation_parse_witness :
    (processEmailAsync pricingEmail (.ok []) (.ok ⟨"d", "h"⟩)
        (.ok "PASS: fine") 0).status = "ready_to_send" :=
  (c3_amended_validation_parse pricingEmail [] ⟨"d", "h"⟩ "PASS: fine" 0).1.mpr
    (by decide)

/-! ## Claim C6 -/

/-- C6: duplicate delivery never creates a second record.  If a record
with the same `(message_id, account_id)` pair is already stored,
`_process_new_email` leaves the store unchanged; and re-normalizing and
re-storing the same transport message a second time (even under a fresh
generated record id) is the identity on the store. -/
theorem c6_store_idempotent (store : List EmailMessage) (d : RawEmail)
    (fid1 fid2 : String) :
    (store.any (sameTransportMsg d) = true →
      processNewEmail store d fid1 = store) ∧
    processNewEmail (processNewEmail store d fid1) d fid2
      = processNewEmail store d fid1 := by
  constructor
  · intro h
    simp [processNewEmail, h]
  · by_cases h : store.any (sameTransportMsg d) = true
    · simp [processNewEmail, h]
    · simp [processNewEmail, h, List.any_append, sameTransportMsg,
        mkStoredEmail]

/-- C6, witness: re-storing a concrete already-stored message leaves the
concrete store unchanged. -/
theorem c6_store_idempotent_witness :
    processNewEmail [mkStoredEmail rawEx "em-0"] rawEx "em-1"
      = [mkStoredEmail rawEx "em-0"] :=
  (c6_store_idempotent [mkStoredEmail rawEx "em-0"] rawEx "em-1" "em-2").1
    (by decide)

/-! ## Claim C7 -/

/-- C7: the claim says the transmitted plain-text part has the signature
appended and the HTML part its line-break-converted form.  Evaluating the
embedded `send_email` on an account whose signature is
`"Best regards,\nAI Email Assistant"`: the attached parts carry the
original draft bodies unmodified and no part contains the signature —
the source appends the signature to the local `body` / `body_html`
variables only after the `MIMEText` parts were already attached
(email_services.py lines 348–363), so the appended strings are discarded. -/
theorem c7_signature_missing_from_transmitted_parts :
    sigAccount.signature ≠ "" ∧
    (sendEmailBuild sigAccount "a@b.com" "Re: Pricing?" (some "Hello")
        (some "<p>Hello</p>") none none (some "<orig-1@b.com>")
        "uuid-1").parts
      = [⟨"text/plain", "Hello"⟩, ⟨"text/html", "<p>Hello</p>"⟩] ∧
    ((sendEmailBuild sigAccount "a@b.com" "Re: Pricing?" (some "Hello")
        (some "<p>Hello</p>") none none (some "<orig-1@b.com>")
        "uuid-1").parts.all
      fun p => !strContains p.content "Best regards") = true := by
  decide

/-! ## Claim C8 -/

/-- C8: the claim says redraft re-invokes the Drafter with the prior
validation feedback as additional guidance.  In the source the feedback is
read but never passed on (`generate_draft(email_message, intents)`; the
`improvement_prompt` built from it is dead), so the redraft outcome is
independent of the stored validation result: two messages differing only
in `validation_result` get the same new draft and the same final status.
The claim's second half does hold: when the re-validation verdict parses
as anything but PASS, the message is set to `escalate`. -/
theorem c8_redraft_ignores_feedback
    (drafter : DraftInputs → Except String DraftResult)
    (validator : ValidateInputs → Except String String)
    (m : EmailMessage) (vr1 vr2 : Option ValidationResult) (now : Nat) :
    ((redraftEmail drafter validator { m with validation_result := vr1 } now).draft
        = (redraftEmail drafter validator { m with validation_result := vr2 } now).draft ∧
      (redraftEmail drafter validator { m with validation_result := vr1 } now).status
        = (redraftEmail drafter validator { m with validation_result := vr2 } now).status) ∧
    (∀ dres raw,
      drafter (draftInputsOf m m.intents) = .ok dres →
      validator (validateInputsOf m dres m.intents) = .ok raw →
      isPassResponse (cleanValidationResponse raw) = false →
      (redraftEmail drafter validator { m with validation_result := vr1 } now).status
        = "escalate") := by
  constructor
  · dsimp only [redraftEmail, draftInputsOf, validateInputsOf]
    rcases hdr : drafter ⟨m.subject, m.sender, m.body, m.intents⟩ with e | dres
    · simp
    · rcases hvl : validator ⟨m.subject, m.sender, m.body, dres.plain_text,
          m.intents⟩ with e | raw
      · simp [hvl]
      · simp [hvl]
  · intro dres raw hdr hvl hfail
    dsimp only [redraftEmail, draftInputsOf, validateInputsOf] at hdr hvl ⊢
    rw [hdr]
    simp [hvl, parseValidation, hfail]

/-- C8, witness: a concrete redraft whose re-validation fails ends in
`escalate`. -/
theorem c8_redraft_ignores_feedback_witness :
    (redraftEmail (fun _ => .ok ⟨"We offer three plans.", "<p>We offer three plans.</p>"⟩)
        (fun _ => .ok "FAIL: still does not state a price")
        { pricingEmail with
            status := "needs_redraft"
            validation_result := some ⟨"FAIL", "too vague", "FAIL: too vague"⟩ }
        9).status = "escalate" :=
  (c8_redraft_ignores_feedback
      (fun _ => .ok ⟨"We offer three plans.", "<p>We offer three plans.</p>"⟩)
      (fun _ => .ok "FAIL: still does not state a price")
      { pricingEmail with status := "needs_redraft" }
      (some ⟨"FAIL", "too vague", "FAIL: too vague"⟩) none 9).2
    ⟨"We offer three plans.", "<p>We offer three plans.</p>"⟩
    "FAIL: still does not state a price" rfl rfl (by decide)

/-! ## Claims C4, C5, C10: connection-manager lemmas -/

/-- Mapping `some` over a list commutes with `getLast?`. -/
theorem getLast?_map_some (l : List Nat) :
    (l.map Option.some).getLast? = l.getLast?.map Option.some := by
  induction l with
  | nil => rfl
  | cons a t ih =>
    cases t with
    | nil => rfl
    | cons b t2 =>
      simpa [List.getLast?_cons_cons] using ih

/-- Every element of a `≤`-sorted list is bounded by its last element. -/
theorem chain'_le_getLast (l : List Nat) (hl : List.Chain' (· ≤ ·) l) :
    ∀ u ∈ l, u ≤ l.getLast?.getD 0 := by
  induction l with
  | nil => intro u hu; simp at hu
  | cons a t ih =>
    intro u hu
    cases t with
    | nil =>
      simp only [List.mem_singleton] at hu
      subst hu
      simp
    | cons b t2 =>
      rcases List.chain'_cons.mp hl with ⟨hab, htail⟩
      rw [List.getLast?_cons_cons]
      rcases List.mem_cons.mp hu with rfl | hu2
      · exact le_trans hab (ih htail b (List.mem_cons_self _ _))
      · exact ih htail u hu2

/-- A zero cursor stays zero through the UIDVALIDITY check. -/
theorem applyUidvalidity_zero (r : Option String) (s : ConnState)
    (h : s.last_uid = 0) : (applyUidvalidity r s).last_uid = 0 := by
  cases r with
  | none => simpa [applyUidvalidity] using h
  | some cur =>
    simp only [applyUidvalidity]
    split_ifs <;> simp [h]

/-- C4: with a zero cursor (first run for the account), a healthy fetch
returns no messages and advances the cursor to the mailbox's current
maximum UID (the last UID of the ascending SEARCH response; an empty
mailbox leaves the cursor at zero), so only mail arriving afterwards is
ever processed. -/
theorem c4_first_run_baseline (w : ImapWorld) (s : ConnState)
    (uids : List Nat)
    (hcur : s.last_uid = 0) (hconn : s.connected = true)
    (hnoop : w.healthNoopOk = true) (hnoop2 : w.noop2Ok = true)
    (hraise : w.searchRaises = false) (hok : w.searchAllOk = true)
    (htoks : w.mailboxTokens = uids.map Option.some)
    (hsorted : List.Chain' (· ≤ ·) uids) :
    (fetchNewEmails w s).1 = [] ∧
    (fetchNewEmails w s).2.last_uid = uids.getLast?.getD 0 ∧
    ∀ u ∈ uids, u ≤ (fetchNewEmails w s).2.last_uid := by
  have h0 : (applyUidvalidity w.uidvResp { s with connected := true }).last_uid
      = 0 := applyUidvalidity_zero _ _ hcur
  rcases uids with _ | ⟨a, t⟩
  · simp only [List.map_nil] at htoks
    simp [fetchNewEmails, hconn, hnoop, hnoop2, hraise, htoks, h0]
  · rcases hgl : (a :: t).getLast? with _ | x
    · simp [List.getLast?_eq_none_iff] at hgl
    · have hmap : w.mailboxTokens.getLast? = some (some x) := by
        rw [htoks, getLast?_map_some, hgl]; rfl
      have hne : w.mailboxTokens ≠ [] := by
        rw [htoks]; simp
      have hb := chain'_le_getLast (a :: t) hsorted
      rw [hgl] at hb
      refine ⟨?_, ?_, ?_⟩ <;>
        simp only [fetchNewEmails, hconn, hnoop, hnoop2, hraise, hok, h0,
          Bool.and_self, Bool.not_true, false_and, if_false, gt_iff_lt,
          lt_irrefl, if_true, hmap, hne, ne_eq, not_false_iff, and_self] <;>
        simp [hgl]
      exact ⟨hb a (by simp), fun u hu => hb u (by simp [hu])⟩

/-- C4, witness: a concrete first-run fetch over the mailbox `[3, 5, 9]`
returns nothing and baselines the cursor. -/
theorem c4_first_run_baseline_witness :
    (fetchNewEmails worldEx connStateEx).1 = [] ∧
    (fetchNewEmails worldEx connStateEx).2.last_uid
      = (([3, 5, 9] : List Nat).getLast?).getD 0 ∧
    ∀ u ∈ ([3, 5, 9] : List Nat),
      u ≤ (fetchNewEmails worldEx connStateEx).2.last_uid :=
  c4_first_run_baseline worldEx connStateEx [3, 5, 9] rfl rfl rfl rfl rfl
    rfl rfl (by simp [List.chain'_cons])

/-- A healthy fetch starting from (or reset to) a zero cursor returns no
messages and keeps the adopted validity token. -/
theorem fetchNewEmails_zero_shape (w : ImapWorld) (s : ConnState)
    (hconn : s.connected = true) (hnoop : w.healthNoopOk = true)
    (hnoop2 : w.noop2Ok = true) (hraise : w.searchRaises = false)
    (h0 : (applyUidvalidity w.uidvResp { s with connected := true }).last_uid
      = 0) :
    (fetchNewEmails w s).1 = [] ∧
    (fetchNewEmails w s).2.uidvalidity
      = (applyUidvalidity w.uidvResp { s with connected := true }).uidvalidity := by
  constructor <;>
    simp [fetchNewEmails, hconn, hnoop, hnoop2, hraise, h0] <;>
    split_ifs <;>
    first
      | rfl
      | simp
      | (rcases w.mailboxTokens.getLast? with _ | ⟨_ | n⟩ <;> rfl)

/-- C5: when the stored validity token differs from the mailbox's current
one, the UIDVALIDITY check resets the cursor to zero and adopts the new
token, and the same poll then takes the first-run path: it returns zero
messages and keeps the new token (re-baselining instead of reprocessing
old mail). -/
theorem c5_uidvalidity_change_rebaseline (w : ImapWorld) (s : ConnState)
    (v cur : String)
    (hstored : s.uidvalidity = some v) (hv : v ≠ "") (hne : v ≠ cur)
    (hcurresp : w.uidvResp = some cur)
    (hconn : s.connected = true) (hnoop : w.healthNoopOk = true)
    (hnoop2 : w.noop2Ok = true) (hraise : w.searchRaises = false) :
    (applyUidvalidity w.uidvResp s).last_uid = 0 ∧
    (applyUidvalidity w.uidvResp s).uidvalidity = some cur ∧
    (fetchNewEmails w s).1 = [] ∧
    (fetchNewEmails w s).2.uidvalidity = some cur := by
  have hreset : ∀ b : Bool,
      applyUidvalidity w.uidvResp { s with connected := b } =
        { connected := b, last_uid := 0, uidvalidity := some cur } := by
    intro b
    simp [applyUidvalidity, hcurresp, hstored, pyTruthy, getS, hv, hne]
  have hshape := fetchNewEmails_zero_shape w s hconn hnoop hnoop2 hraise
    (by rw [hreset true])
  refine ⟨?_, ?_, hshape.1, ?_⟩
  · simpa using congrArg ConnState.last_uid (hreset s.connected)
  · simpa using congrArg ConnState.uidvalidity (hreset s.connected)
  · rw [hshape.2, hreset true]

/-- C5, witness: a concrete fetch whose stored token `uv-1` differs from
the current `uv-2` resets, adopts `uv-2` and returns nothing. -/
theorem c5_uidvalidity_change_rebaseline_witness :
    (applyUidvalidity worldEx.uidvResp connStateEx2).last_uid = 0 ∧
    (applyUidvalidity worldEx.uidvResp connStateEx2).uidvalidity
      = some "uv-2" ∧
    (fetchNewEmails worldEx connStateEx2).1 = [] ∧
    (fetchNewEmails worldEx connStateEx2).2.uidvalidity = some "uv-2" :=
  c5_uidvalidity_change_rebaseline worldEx connStateEx2 "uv-1" "uv-2" rfl
    (by decide) (by decide) rfl rfl rfl rfl rfl

/-- C10: `fetch_new_emails` never propagates a session failure: it is a
total function into a result list and a new state; when no session can be
established the result is the empty list with the session discarded; and
whenever the search raises, the result is the empty list and the session
is discarded so the next call starts from a fresh connection. -/
theorem c10_fetch_never_propagates (w : ImapWorld) (s : ConnState) :
    ((s.connected && w.healthNoopOk) = false → w.connectOk = false →
      fetchNewEmails w s = ([], { s with connected := false })) ∧
    (w.noop2Ok = false → w.reconnectOk = false →
      (fetchNewEmails w s).1 = [] ∧
        (fetchNewEmails w s).2.connected = false) ∧
    (w.searchRaises = true →
      (fetchNewEmails w s).1 = [] ∧
        (fetchNewEmails w s).2.connected = false) := by
  refine ⟨fun h1 h2 => ?_, fun h1 h2 => ?_, fun h1 => ?_⟩
  · simp [fetchNewEmails, h1, h2]
  · by_cases hh : (s.connected && w.healthNoopOk) = true
    · simp [fetchNewEmails, hh, h1, h2]
    · by_cases hc : w.connectOk = true
      · simp [fetchNewEmails, hh, hc, h1, h2]
      · simp [fetchNewEmails, Bool.not_eq_true _ ▸ hh, hc,
          Bool.eq_false_iff.mpr, h1, h2,
          (Bool.not_eq_true _).mp hh]
  · by_cases hh : (s.connected && w.healthNoopOk) = true
    · by_cases hn : w.noop2Ok = true
      · simp [fetchNewEmails, hh, hn, h1]
      · by_cases hr : w.reconnectOk = true
        · simp [fetchNewEmails, hh, hn, hr, h1]
        · simp [fetchNewEmails, hh, hn, hr, h1]
    · by_cases hc : w.connectOk = true
      · by_cases hn : w.noop2Ok = true
        · simp [fetchNewEmails, hh, hc, hn, h1]
        · by_cases hr : w.reconnectOk = true
          · simp [fetchNewEmails, hh, hc, hn, hr, h1]
          · simp [fetchNewEmails, hh, hc, hn, hr, h1]
      · simp [fetchNewEmails, hh, hc, h1]

/-- C10, witness: a concrete raising search yields the empty list and a
discarded session. -/
theorem c10_fetch_never_propagates_witness :
    (fetchNewEmails worldRaisesEx connStateEx2).1 = [] ∧
    (fetchNewEmails worldRaisesEx connStateEx2).2.connected = false :=
  (c10_fetch_never_propagates worldRaisesEx connStateEx2).2.2 rfl

/-! ## Claim C9: thread-id lemmas -/

/-- `dropWhile` is the identity when no element satisfies the predicate
(only the head matters, but all-element form is convenient). -/
theorem dropWhile_eq_self_of (p : Char → Bool) (l : List Char)
    (h : ∀ c ∈ l, p c = false) : l.dropWhile p = l := by
  cases l with
  | nil => rfl
  | cons c rest => simp [List.dropWhile_cons, h c (by simp)]

/-- `strip('<>')` recovers the bare id from an angle-bracketed header
value whose id contains no angle brackets. -/
theorem stripAngles_wrap (tid : String) (hne : tid.data ≠ [])
    (hchar : ∀ c ∈ tid.data, isAngle c = false) :
    stripAngles ("<" ++ tid ++ ">") = tid := by
  obtain ⟨c, rest, hl⟩ : ∃ c rest, tid.data = c :: rest := by
    rcases h : tid.data with _ | ⟨c, rest⟩
    · exact absurd h hne
    · exact ⟨c, rest, rfl⟩
  have hdata : ("<" ++ tid ++ ">").data = '<' :: (tid.data ++ ['>']) := by
    show "<".data ++ tid.data ++ ">".data = _
    simp
  have s1 : ('<' :: (tid.data ++ ['>'])).dropWhile isAngle
      = tid.data ++ ['>'] := by
    rw [List.dropWhile_cons, if_pos (by decide : isAngle '<' = true), hl,
      List.cons_append, List.dropWhile_cons,
      if_neg (by simp [hchar c (by rw [hl]; simp)])]
  have s2 : (tid.data ++ ['>']).reverse = '>' :: tid.data.reverse := by simp
  have s3 : ('>' :: tid.data.reverse).dropWhile isAngle
      = tid.data.reverse := by
    rw [List.dropWhile_cons, if_pos (by decide : isAngle '>' = true)]
    exact dropWhile_eq_self_of _ _
      (fun ch hch => hchar ch (List.mem_reverse.mp hch))
  simp only [stripAngles, hdata, s1, s2, s3, List.reverse_reverse]

/-- `split()` of a string containing no whitespace yields the token list
anticipated by the accumulator. -/
theorem wsTokensAux_no_ws (l : List Char) :
    ∀ acc : List Char, (∀ c ∈ l, c.isWhitespace = false) →
      wsTokensAux l acc =
        if acc.reverse ++ l = [] then [] else [acc.reverse ++ l] := by
  induction l with
  | nil =>
    intro acc _
    simp only [wsTokensAux, List.append_nil]
    by_cases h : acc = [] <;> simp [h]
  | cons c rest ih =>
    intro acc h
    have hc : c.isWhitespace = false := h c (by simp)
    rw [wsTokensAux.eq_def]
    simp only [hc, if_false, Bool.false_eq_true]
    rw [ih (c :: acc) (fun x hx => h x (by simp [hx]))]
    simp [List.append_assoc]

/-- Python `s.split()` of a non-empty whitespace-free string is the
one-token list `[s]`. -/
theorem pySplitWs_single (s : String) (hne : s.data ≠ [])
    (h : ∀ c ∈ s.data, c.isWhitespace = false) : pySplitWs s = [s] := by
  unfold pySplitWs
  rw [wsTokensAux_no_ws s.data [] h]
  simp [hne]

/-- C9: thread-id derivation is a pure function of
(`In-Reply-To`, `References`, subject, account email) — in particular the
unused `message_id` argument does not influence it — and two replies to
the same original message share a thread id: a reply carrying
`In-Reply-To: <tid>` and a reply carrying only `References: <tid>` both
derive the thread id `tid` (for any id without angle brackets or
whitespace), under any per-process string-hash function `pyHash`. -/
theorem c9_thread_id_pure_and_shared (pyHash : String → Int)
    (selfEmail mid1 mid2 irt refs subj subj1 subj2 refRest tid : String)
    (hne : tid.data ≠ [])
    (hchar : ∀ c ∈ tid.data, isAngle c = false ∧ c.isWhitespace = false) :
    (generateThreadId pyHash selfEmail mid1 irt refs subj
      = generateThreadId pyHash selfEmail mid2 irt refs subj) ∧
    generateThreadId pyHash selfEmail mid1 ("<" ++ tid ++ ">") refRest subj1
      = tid ∧
    generateThreadId pyHash selfEmail mid2 "" ("<" ++ tid ++ ">") subj2
      = tid := by
  have hwrapdata : ("<" ++ tid ++ ">").data = '<' :: (tid.data ++ ['>']) := by
    show "<".data ++ tid.data ++ ">".data = _
    simp
  have hwrapne : ("<" ++ tid ++ ">") ≠ "" := by
    intro h
    have := congrArg String.data h
    rw [hwrapdata] at this
    simp at this
  have hstrip : stripAngles ("<" ++ tid ++ ">") = tid :=
    stripAngles_wrap tid hne (fun c hc => (hchar c hc).1)
  refine ⟨rfl, ?_, ?_⟩
  · simp only [generateThreadId, if_pos hwrapne, ne_eq, hwrapne,
      not_false_iff, if_true, hstrip]
  · have hsplit : pySplitWs ("<" ++ tid ++ ">") = ["<" ++ tid ++ ">"] := by
      refine pySplitWs_single _ (by rw [hwrapdata]; simp) ?_
      intro c hc
      rw [hwrapdata] at hc
      rcases List.mem_cons.mp hc with rfl | hc2
      · decide
      · rcases List.mem_append.mp hc2 with hc3 | hc3
        · exact (hchar c hc3).2
        · rcases List.mem_singleton.mp hc3 with rfl
          decide
    simp only [generateThreadId, ne_eq, not_true_eq_false, if_false,
      hwrapne, not_false_iff, if_true, hsplit, hstrip]

/-- C9, witness: purity and sharing at a concrete message id. -/
theorem c9_thread_id_pure_and_shared_witness :
    ((generateThreadId (fun _ => 0) "assistant@co.example" "m1"
        "<orig-1@b.com>" "" "Pricing?"
      = generateThreadId (fun _ => 0) "assistant@co.example" "m2"
        "<orig-1@b.com>" "" "Pricing?") ∧
    generateThreadId (fun _ => 0) "assistant@co.example" "m1"
        ("<" ++ "orig-1@b.com" ++ ">") "" "Pricing?"
      = "orig-1@b.com" ∧
    generateThreadId (fun _ => 0) "assistant@co.example" "m2" ""
        ("<" ++ "orig-1@b.com" ++ ">") "Re: Pricing?"
      = "orig-1@b.com") :=
  c9_thread_id_pure_and_shared (fun _ => 0) "assistant@co.example" "m1"
    "m2" "<orig-1@b.com>" "" "Pricing?" "Pricing?" "Re: Pricing?" ""
    "orig-1@b.com" (by decide) (by decide)

end MJResponder
